import Mathlib

/-
Verification of the Telegram weather bot (weather_bot.py and
weather_bot_cloud.py): a shallow embedding of its routing, fetching and
formatting functions, and theorems about the behaviour they expose.

The two source files are identical except for where the optional wind-speed
field is read (`weather_data['main'].get('wind', {}).get('speed', 'N/A')` in
weather_bot.py versus `weather_data.get('wind', {}).get('speed', 'N/A')` in
weather_bot_cloud.py); every other embedded function stands for both files.
Numeric payload fields that are only interpolated into f-strings are carried
as their rendered string form, since the code never computes with them.
-/

/-- A JSON weather payload as the two bots access it, flattened to the leaf
fields the code reads. Every field the code reaches through `['k']` or
`.get('k', default)` is an `Option`, modelling a key that may be absent:
`name`, `sys.country`, `main.temp`, `main.feels_like`, `main.humidity`,
`main.pressure`, `weather[0].description`, `weather[0].id`, plus the two
wind-speed locations `main.wind.speed` (read by weather_bot.py line 80) and
top-level `wind.speed` (read by weather_bot_cloud.py line 81). -/
structure Payload where
  name : Option String
  sys_country : Option String
  main_temp : Option String
  main_feels_like : Option String
  main_humidity : Option String
  main_pressure : Option String
  main_wind_speed : Option String
  wind_speed : Option String
  weather_description : Option String
  weather_id : Option Int

deriving instance DecidableEq for Payload

deriving instance DecidableEq for Except

/-- A required dictionary access `d['k']`: Python raises `KeyError` when the
key is absent, modelled as `Except.error`. -/
def getItem (v : Option α) (k : String) : Except String α :=
  match v with
  | some x => Except.ok x
  | none => Except.error ("KeyError: " ++ k)

/-- The character-level engine of Python's `str.title()`: a letter that
follows a non-letter is uppercased, a letter that follows a letter is
lowercased, every other character passes through. -/
def titleChars : Bool → List Char → List Char
  | _, [] => []
  | prevAlpha, c :: cs =>
    if c.isAlpha then
      (if prevAlpha then c.toLower else c.toUpper) :: titleChars true cs
    else
      c :: titleChars false cs

/-- Python's `str.title()` as the code applies it to the weather
description (weather_bot.py line 79). -/
def pyTitle (s : String) : String := String.mk (titleChars false s.data)

/-- `WeatherBot.get_weather_emoji` (weather_bot.py lines 98-113, identical in
weather_bot_cloud.py): the seven-way icon selection over the integer
condition code. -/
def get_weather_emoji (weather_id : Int) : String :=
  if weather_id < 300 then "⛈️"
  else if weather_id < 400 then "🌦️"
  else if weather_id < 600 then "🌧️"
  else if weather_id < 700 then "❄️"
  else if weather_id < 800 then "🌫️"
  else if weather_id = 800 then "☀️"
  else "☁️"

/-- C1: get_weather_emoji is a total function of the integer condition code;
the seven cases partition the integers with no gap or overlap (each icon is
returned exactly on its documented range), and each of the boundary codes
299, 300, 399, 400, 599, 600, 699, 700, 799, 800 and 801 resolves to the
documented icon. -/
theorem emoji_total_partition (c : Int) :
    (get_weather_emoji c = "⛈️" ↔ c < 300) ∧
    (get_weather_emoji c = "🌦️" ↔ 300 ≤ c ∧ c < 400) ∧
    (get_weather_emoji c = "🌧️" ↔ 400 ≤ c ∧ c < 600) ∧
    (get_weather_emoji c = "❄️" ↔ 600 ≤ c ∧ c < 700) ∧
    (get_weather_emoji c = "🌫️" ↔ 700 ≤ c ∧ c < 800) ∧
    (get_weather_emoji c = "☀️" ↔ c = 800) ∧
    (get_weather_emoji c = "☁️" ↔ 800 < c) ∧
    get_weather_emoji 299 = "⛈️" ∧ get_weather_emoji 300 = "🌦️" ∧
    get_weather_emoji 399 = "🌦️" ∧ get_weather_emoji 400 = "🌧️" ∧
    get_weather_emoji 599 = "🌧️" ∧ get_weather_emoji 600 = "❄️" ∧
    get_weather_emoji 699 = "❄️" ∧ get_weather_emoji 700 = "🌫️" ∧
    get_weather_emoji 799 = "🌫️" ∧ get_weather_emoji 800 = "☀️" ∧
    get_weather_emoji 801 = "☁️" := by
  refine ⟨?_, ?_, ?_, ?_, ?_, ?_, ?_, by decide, by decide, by decide, by decide,
    by decide, by decide, by decide, by decide, by decide, by decide, by decide⟩ <;>
  · unfold get_weather_emoji
    split_ifs with h1 h2 h3 h4 h5 h6 <;> simp_all +decide <;> omega

/-- `WeatherBot.format_weather_message` of weather_bot.py (lines 71-96):
reads the required payload fields in source order (each raising `KeyError`
when absent), reads the optional wind speed from `main.wind.speed` with
default `'N/A'`, title-cases the description, selects the icon, and renders
the fixed multi-line message. -/
def format_weather_message (weather_data : Payload) : Except String String := do
  let city ← getItem weather_data.name "name"
  let country ← getItem weather_data.sys_country "country"
  let temp ← getItem weather_data.main_temp "temp"
  let feels_like ← getItem weather_data.main_feels_like "feels_like"
  let humidity ← getItem weather_data.main_humidity "humidity"
  let pressure ← getItem weather_data.main_pressure "pressure"
  let description := pyTitle (← getItem weather_data.weather_description "description")
  let wind_speed := weather_data.main_wind_speed.getD "N/A"
  let weather_id ← getItem weather_data.weather_id "id"
  let emoji := get_weather_emoji weather_id
  return (emoji ++ " Weather in " ++ city ++ ", " ++ country ++ "\n\n" ++
    "🌡️ Temperature: " ++ temp ++ "°C\n" ++
    "🤔 Feels like: " ++ feels_like ++ "°C\n" ++
    "📝 Description: " ++ description ++ "\n" ++
    "💧 Humidity: " ++ humidity ++ "%\n" ++
    "📊 Pressure: " ++ pressure ++ " hPa\n") ++
    ("💨 Wind Speed: " ++ wind_speed ++ " m/s")

/-- `WeatherBot.format_weather_message` of weather_bot_cloud.py (lines
72-96): identical to the weather_bot.py version except that the optional
wind speed is read from the top-level `wind.speed` (line 81). -/
def format_weather_message_cloud (weather_data : Payload) : Except String String := do
  let city ← getItem weather_data.name "name"
  let country ← getItem weather_data.sys_country "country"
  let temp ← getItem weather_data.main_temp "temp"
  let feels_like ← getItem weather_data.main_feels_like "feels_like"
  let humidity ← getItem weather_data.main_humidity "humidity"
  let pressure ← getItem weather_data.main_pressure "pressure"
  let description := pyTitle (← getItem weather_data.weather_description "description")
  let wind_speed := weather_data.wind_speed.getD "N/A"
  let weather_id ← getItem weather_data.weather_id "id"
  let emoji := get_weather_emoji weather_id
  return (emoji ++ " Weather in " ++ city ++ ", " ++ country ++ "\n\n" ++
    "🌡️ Temperature: " ++ temp ++ "°C\n" ++
    "🤔 Feels like: " ++ feels_like ++ "°C\n" ++
    "📝 Description: " ++ description ++ "\n" ++
    "💧 Humidity: " ++ humidity ++ "%\n" ++
    "📊 Pressure: " ++ pressure ++ " hPa\n") ++
    ("💨 Wind Speed: " ++ wind_speed ++ " m/s")

/-- One upstream outcome of the single HTTP round trip in
`WeatherBot.get_weather_data`: a response with a status code and (when the
status is 200) a parsed JSON body, or a network-level failure carrying the
description of its cause. -/
inductive HttpOutcome where
  | response (status : Nat) (body : Payload)
  | network_failure (detail : String)

deriving instance DecidableEq for HttpOutcome

/-- `WeatherBot.get_weather_data` (weather_bot.py lines 50-69, identical in
weather_bot_cloud.py lines 51-70): status 200 returns the parsed body,
status 404 returns `None`, any other status raises
`Exception(f"API request failed with status {status}")`, and the
`except` clause logs and re-raises, so a network failure also propagates.
`Except.error` models the exception escaping the function. -/
def get_weather_data (o : HttpOutcome) : Except String (Option Payload) :=
  match o with
  | .response status body =>
    if status = 200 then Except.ok (some body)
    else if status = 404 then Except.ok none
    else Except.error ("API request failed with status " ++ toString status)
  | .network_failure detail => Except.error detail

/-- The not-found reply of `WeatherBot.get_weather` (weather_bot.py lines
149-152), with the queried city interpolated. -/
def not_found_reply (city_name : String) : String :=
  "❌ Sorry, I couldn't find weather information for '" ++ city_name ++
    "'.\nPlease check the city name and try again."

/-- The generic failure reply of `WeatherBot.get_weather` (weather_bot.py
lines 160-163); the two adjacent Python string literals concatenate to this
single line. -/
def generic_error_reply : String :=
  "❌ Sorry, there was an error getting the weather information. Please try again later."

/-- `WeatherBot.get_weather` (weather_bot.py lines 140-163): fetches, maps
`None` to the not-found reply, formats the payload, and catches every
exception raised by the fetch or the formatting with the generic failure
reply. The returned string is the text of the one reply sent to the user. -/
def get_weather (city_name : String) (o : HttpOutcome) : String :=
  match get_weather_data o with
  | Except.error _ => generic_error_reply
  | Except.ok none => not_found_reply city_name
  | Except.ok (some weather_data) =>
    match format_weather_message weather_data with
    | Except.ok msg => msg
    | Except.error _ => generic_error_reply

/-- An all-fields-absent payload, the body of a response whose JSON the code
never reads. -/
def payload_empty : Payload :=
  ⟨none, none, none, none, none, none, none, none, none, none⟩

/-- C2: on HTTP status 404 the fetcher returns the NotFound result (`None`),
and the reply sent to the user is exactly the not-found template with the
queried city interpolated. -/
theorem http404_not_found_reply (city_name : String) (body : Payload) :
    get_weather_data (HttpOutcome.response 404 body) = Except.ok none ∧
    get_weather city_name (HttpOutcome.response 404 body) =
      "❌ Sorry, I couldn't find weather information for '" ++ city_name ++
        "'.\nPlease check the city name and try again." := by
  constructor <;> simp [get_weather_data, get_weather, not_found_reply]

/-- C3: on any HTTP status other than 200 and 404 the fetch raises (modelled
as `Except.error`), and on a network-level failure likewise; in both cases
the reply sent to the user is exactly the generic failure template, a
constant independent of the queried city. -/
theorem transport_error_generic_reply (city_name : String) (status : Nat)
    (body : Payload) (h200 : status ≠ 200) (h404 : status ≠ 404) :
    (∃ e, get_weather_data (HttpOutcome.response status body) = Except.error e) ∧
    get_weather city_name (HttpOutcome.response status body) =
      "❌ Sorry, there was an error getting the weather information. Please try again later." ∧
    (∀ detail, get_weather_data (HttpOutcome.network_failure detail) = Except.error detail ∧
      get_weather city_name (HttpOutcome.network_failure detail) =
        "❌ Sorry, there was an error getting the weather information. Please try again later.") := by
  refine ⟨⟨"API request failed with status " ++ toString status, ?_⟩, ?_, ?_⟩
  · simp [get_weather_data, h200, h404]
  · simp [get_weather, get_weather_data, h200, h404, generic_error_reply]
  · intro detail
    exact ⟨rfl, rfl⟩

/-- C3 witness: a concrete status-500 response resolves to the generic
failure reply. -/
theorem transport_error_generic_reply_witness :
    (∃ e, get_weather_data (HttpOutcome.response 500 payload_empty) = Except.error e) ∧
    get_weather "London" (HttpOutcome.response 500 payload_empty) =
      "❌ Sorry, there was an error getting the weather information. Please try again later." ∧
    (∀ detail, get_weather_data (HttpOutcome.network_failure detail) = Except.error detail ∧
      get_weather "London" (HttpOutcome.network_failure detail) =
        "❌ Sorry, there was an error getting the weather information. Please try again later.") :=
  transport_error_generic_reply "London" 500 payload_empty (by decide) (by decide)

/-- C4 counterexample: at HTTP status 500 the fetch does not return a tagged
value at all — it raises past its boundary (`Except.error`), refuting the
claim that `get_weather_data` never raises and always returns a tagged
result. -/
theorem fetch_raises_counterexample :
    ¬ ∃ v : Option Payload,
      get_weather_data (HttpOutcome.response 500 payload_empty) = Except.ok v := by
  rintro ⟨v, hv⟩
  simp [get_weather_data] at hv

/-- C4 (amended): `get_weather_data` returns a payload on 200 and `None` on
404, but raises for every other status and for network failures; the
exception propagates to `get_weather`, whose blanket `except` catches it and
replies with the fixed generic failure text, so every upstream outcome still
ends in exactly one reply: the formatted message, the not-found reply, or
the generic failure reply. -/
theorem fetch_exception_contained (city_name : String) (o : HttpOutcome) :
    ((∃ e, get_weather_data o = Except.error e) →
      get_weather city_name o = generic_error_reply) ∧
    (get_weather city_name o = generic_error_reply ∨
      get_weather city_name o = not_found_reply city_name ∨
      ∃ d msg, get_weather_data o = Except.ok (some d) ∧
        format_weather_message d = Except.ok msg ∧ get_weather city_name o = msg) := by
  constructor
  · rintro ⟨e, he⟩
    simp [get_weather, he]
  · cases hd : get_weather_data o with
    | error e => exact Or.inl (by simp [get_weather, hd])
    | ok v =>
      cases v with
      | none => exact Or.inr (Or.inl (by simp [get_weather, hd]))
      | some d =>
        cases hf : format_weather_message d with
        | error e => exact Or.inl (by simp [get_weather, hd, hf])
        | ok msg => exact Or.inr (Or.inr ⟨d, msg, rfl, hf, by simp [get_weather, hd, hf]⟩)

/-- The eight payload fields whose access in `format_weather_message` is a
required `['k']` lookup: formatting succeeds exactly when all of them are
present. -/
def has_required_fields (d : Payload) : Bool :=
  d.name.isSome && d.sys_country.isSome && d.main_temp.isSome &&
  d.main_feels_like.isSome && d.main_humidity.isSome && d.main_pressure.isSome &&
  d.weather_description.isSome && d.weather_id.isSome

/-- C5: for a payload carrying every required field but no `main.wind.speed`,
formatting does not fail, and the produced message ends in the wind-speed
line rendered with the literal sentinel, `"💨 Wind Speed: N/A m/s"`. -/
theorem missing_wind_speed_na (d : Payload) (hreq : has_required_fields d)
    (hw : d.main_wind_speed = none) :
    ∃ msg, format_weather_message d = Except.ok msg ∧
      ("💨 Wind Speed: N/A m/s" : String).data <:+ msg.data := by
  simp only [has_required_fields, Bool.and_eq_true, Option.isSome_iff_exists] at hreq
  obtain ⟨⟨⟨⟨⟨⟨⟨⟨n, hn⟩, ⟨co, hco⟩⟩, ⟨t, ht⟩⟩, ⟨fl, hfl⟩⟩, ⟨hu, hhu⟩⟩, ⟨pr, hpr⟩⟩,
    ⟨de, hde⟩⟩, ⟨wid, hwid⟩⟩ := hreq
  have hmsg : format_weather_message d = Except.ok
      ((get_weather_emoji wid ++ " Weather in " ++ n ++ ", " ++ co ++ "\n\n" ++
        "🌡️ Temperature: " ++ t ++ "°C\n" ++
        "🤔 Feels like: " ++ fl ++ "°C\n" ++
        "📝 Description: " ++ pyTitle de ++ "\n" ++
        "💧 Humidity: " ++ hu ++ "%\n" ++
        "📊 Pressure: " ++ pr ++ " hPa\n") ++
        ("💨 Wind Speed: " ++ "N/A" ++ " m/s")) := by
    simp [format_weather_message, getItem, hn, hco, ht, hfl, hhu, hpr, hde, hw, hwid,
      bind, Except.bind, pure, Except.pure]
  refine ⟨_, hmsg, ?_⟩
  have htail : ("💨 Wind Speed: " ++ "N/A" ++ " m/s" : String) =
      "💨 Wind Speed: N/A m/s" := by decide
  rw [← htail, String.data_append]
  exact ⟨_, rfl⟩

/-- A payload with every required field present and no wind speed at either
location. -/
def payload_no_wind : Payload :=
  ⟨some "London", some "GB", some "15.0", some "14.0", some "80", some "1012",
    none, none, some "few clouds", some 801⟩

/-- C5 witness: formatting the concrete no-wind payload succeeds and ends in
the `N/A` wind-speed line. -/
theorem missing_wind_speed_na_witness :
    ∃ msg, format_weather_message payload_no_wind = Except.ok msg ∧
      ("💨 Wind Speed: N/A m/s" : String).data <:+ msg.data :=
  missing_wind_speed_na payload_no_wind (by decide) rfl

/-- A payload whose optional wind speed sits at the provider's top-level
`wind.speed` location only. -/
def payload_top_wind : Payload :=
  ⟨some "Paris", some "FR", some "18", some "17", some "70", some "1010",
    none, some "5.2", some "clear sky", some 800⟩

/-- C6: the two near-duplicate formatters read the optional wind speed from
different payload locations, so on a payload carrying a top-level
`wind.speed` the cloud variant renders the numeric speed while the
weather_bot.py variant renders `N/A`, and their outputs differ. -/
theorem wind_location_divergence :
    format_weather_message_cloud payload_top_wind = Except.ok
      ("☀️ Weather in Paris, FR\n\n🌡️ Temperature: 18°C\n🤔 Feels like: 17°C\n📝 Description: Clear Sky\n💧 Humidity: 70%\n📊 Pressure: 1010 hPa\n💨 Wind Speed: 5.2 m/s") ∧
    format_weather_message payload_top_wind = Except.ok
      ("☀️ Weather in Paris, FR\n\n🌡️ Temperature: 18°C\n🤔 Feels like: 17°C\n📝 Description: Clear Sky\n💧 Humidity: 70%\n📊 Pressure: 1010 hPa\n💨 Wind Speed: N/A m/s") ∧
    format_weather_message payload_top_wind ≠ format_weather_message_cloud payload_top_wind := by
  have h1 : format_weather_message_cloud payload_top_wind = Except.ok
      ("☀️ Weather in Paris, FR\n\n🌡️ Temperature: 18°C\n🤔 Feels like: 17°C\n📝 Description: Clear Sky\n💧 Humidity: 70%\n📊 Pressure: 1010 hPa\n💨 Wind Speed: 5.2 m/s") := by
    decide
  have h2 : format_weather_message payload_top_wind = Except.ok
      ("☀️ Weather in Paris, FR\n\n🌡️ Temperature: 18°C\n🤔 Feels like: 17°C\n📝 Description: Clear Sky\n💧 Humidity: 70%\n📊 Pressure: 1010 hPa\n💨 Wind Speed: N/A m/s") := by
    decide
  refine ⟨h1, h2, ?_⟩
  rw [h1, h2]
  intro h
  injection h with h
  exact absurd h (by decide)

/-- The number of positions of `s` at which `pat` occurs as a substring
(counted over the character lists). -/
def count_occurrences_aux (pat : List Char) : List Char → Nat
  | [] => 0
  | c :: cs =>
    (if pat.isPrefixOf (c :: cs) then 1 else 0) + count_occurrences_aux pat cs

/-- The number of occurrences of `pat` inside `s`. -/
def count_occurrences (pat s : String) : Nat :=
  count_occurrences_aux pat.data s.data

/-- A synthetic successful payload with pairwise-distinct field values, the
round-trip input of the formatting contract. -/
def payload_round_trip : Payload :=
  ⟨some "Testville", some "ZZ", some "21.5", some "19.8", some "63", some "1007",
    some "4.6", none, some "light rain", some 500⟩

/-- The message the round-trip payload must format to: header with icon,
city and country, then temperature, feels-like, description, humidity,
pressure and wind speed, each with its documented unit suffix. -/
def round_trip_message : String :=
  "🌧️ Weather in Testville, ZZ\n\n🌡️ Temperature: 21.5°C\n🤔 Feels like: 19.8°C\n📝 Description: Light Rain\n💧 Humidity: 63%\n📊 Pressure: 1007 hPa\n💨 Wind Speed: 4.6 m/s"

set_option maxRecDepth 8000 in
/-- C7: formatting the synthetic payload yields exactly the documented
fixed-layout message — fields in the documented order, unit suffixes
`°C`, `°C`, `%`, `hPa`, `m/s`, the description title-cased to `Light Rain`
— and each field value occurs exactly once in the message (counted together
with its unit suffix where the bare digits also appear inside other
values). -/
theorem round_trip_format :
    format_weather_message payload_round_trip = Except.ok round_trip_message ∧
    count_occurrences "Testville" round_trip_message = 1 ∧
    count_occurrences "ZZ" round_trip_message = 1 ∧
    count_occurrences "21.5°C" round_trip_message = 1 ∧
    count_occurrences "19.8°C" round_trip_message = 1 ∧
    count_occurrences "Light Rain" round_trip_message = 1 ∧
    count_occurrences "63%" round_trip_message = 1 ∧
    count_occurrences "1007 hPa" round_trip_message = 1 ∧
    count_occurrences "4.6 m/s" round_trip_message = 1 := by
  refine ⟨by decide, ?_, ?_, ?_, ?_, ?_, ?_, ?_, ?_⟩ <;> decide

/-- An action of the intent router: the text of a static reply, or a weather
lookup that will invoke the fetcher with the given city. -/
inductive BotAction where
  | reply (text : String)
  | lookup (city : String)

deriving instance DecidableEq for BotAction

/-- The guidance reply of `WeatherBot.weather_command` (weather_bot.py lines
118-121); the two adjacent Python string literals concatenate across the
newline. -/
def provide_city_reply : String := "Please provide a city name!\nExample: /weather London"

/-- The unknown-command reply of `WeatherBot.handle_message` (weather_bot.py
lines 133-135). -/
def unknown_command_reply : String := "Unknown command. Type /help for available commands."

/-- Python's `' '.join(args)` as used in weather_bot.py line 124. -/
def join_space : List String → String
  | [] => ""
  | [a] => a
  | a :: b :: rest => a ++ " " ++ join_space (b :: rest)

/-- `WeatherBot.weather_command` (weather_bot.py lines 115-125, identical in
weather_bot_cloud.py): with no argument tokens it replies with the guidance
text and returns; otherwise it joins the tokens with spaces and performs the
weather lookup for that city. -/
def weather_command (args : List String) : BotAction :=
  if args.isEmpty then BotAction.reply provide_city_reply
  else BotAction.lookup (join_space args)

/-- Python's `str.strip()` as used in weather_bot.py line 129: leading and
trailing whitespace removed. -/
def py_strip (s : String) : String :=
  String.mk (((s.data.dropWhile Char.isWhitespace).reverse.dropWhile
    Char.isWhitespace).reverse)

/-- `WeatherBot.handle_message` (weather_bot.py lines 127-138, identical in
weather_bot_cloud.py): strips the text, replies to strings starting with
`/` as unknown commands, and otherwise performs the weather lookup with the
stripped text as the city. -/
def handle_message (text : String) : BotAction :=
  let city_name := py_strip text
  if city_name.startsWith "/" then BotAction.reply unknown_command_reply
  else BotAction.lookup city_name

/-- Modelled from the spec: the messaging platform splits the text after the
command token on whitespace to produce `context.args`; this tokenization
happens in the telegram library, outside the repository, and the spec
describes the remainder of the text after the command token as the city
argument, empty when it has no tokens. `words_aux` accumulates the current
word (reversed) while scanning. -/
def words_aux : List Char → List Char → List String
  | cur, [] => if cur.isEmpty then [] else [String.mk cur.reverse]
  | cur, c :: cs =>
    if c.isWhitespace then
      if cur.isEmpty then words_aux [] cs
      else String.mk cur.reverse :: words_aux [] cs
    else words_aux (c :: cur) cs

/-- The argument tokens (`context.args`) the platform derives from the text
after the `/weather` command token. -/
def context_args (s : String) : List String := words_aux [] s.data

theorem words_aux_eq_nil (l : List Char) (h : ∀ c ∈ l, c.isWhitespace) :
    words_aux [] l = [] := by
  induction l with
  | nil => rfl
  | cons c cs ih =>
    have hc : c.isWhitespace := h c (by simp)
    simpa [words_aux, hc] using ih (fun x hx => h x (by simp [hx]))

theorem words_aux_mem_ne_nil (l : List Char) :
    ∀ (cur : List Char) (t : String), t ∈ words_aux cur l → t.data ≠ [] := by
  induction l with
  | nil =>
    intro cur t ht
    by_cases hcur : cur.isEmpty
    · simp [words_aux, hcur] at ht
    · simp [words_aux, hcur] at ht
      subst ht
      simp only [List.isEmpty_iff] at hcur
      simpa [List.reverse_eq_nil_iff] using hcur
  | cons c cs ih =>
    intro cur t ht
    rw [words_aux] at ht
    by_cases hw : c.isWhitespace
    · rw [if_pos hw] at ht
      by_cases hcur : cur.isEmpty
      · rw [if_pos hcur] at ht
        exact ih [] t ht
      · rw [if_neg hcur] at ht
        rcases List.mem_cons.mp ht with h | h
        · subst h
          simp only [List.isEmpty_iff] at hcur
          simpa [List.reverse_eq_nil_iff] using hcur
        · exact ih [] t h
    · rw [if_neg hw] at ht
      exact ih (c :: cur) t ht

theorem join_space_data_ne_nil (a : String) (rest : List String)
    (ha : a.data ≠ []) : (join_space (a :: rest)).data ≠ [] := by
  cases rest with
  | nil => simpa [join_space] using ha
  | cons b r =>
    intro h
    rw [join_space, String.data_append, String.data_append,
      List.append_eq_nil, List.append_eq_nil] at h
    exact absurd h.1.2 (by decide)

/-- C8: a `/weather` command whose argument is empty or whitespace-only
yields no argument tokens; the handler replies with exactly the guidance
text and produces no lookup, so the fetcher is never invoked for the
request. -/
theorem empty_weather_arg_guidance (s : String) (h : ∀ c ∈ s.data, c.isWhitespace) :
    context_args s = [] ∧
    weather_command (context_args s) =
      BotAction.reply "Please provide a city name!\nExample: /weather London" ∧
    ∀ city, weather_command (context_args s) ≠ BotAction.lookup city := by
  have hargs : context_args s = [] := words_aux_eq_nil s.data h
  refine ⟨hargs, ?_, ?_⟩
  · rw [hargs]; rfl
  · intro city
    rw [hargs]
    simp [weather_command, provide_city_reply]

/-- C8 witness: the whitespace-only argument text produces the guidance
reply and no lookup. -/
theorem empty_weather_arg_guidance_witness :
    context_args "   " = [] ∧
    weather_command (context_args "   ") =
      BotAction.reply "Please provide a city name!\nExample: /weather London" ∧
    ∀ city, weather_command (context_args "   ") ≠ BotAction.lookup city :=
  empty_weather_arg_guidance "   " (by decide)

/-- C9 counterexample: a whitespace-only free-text message strips to the
empty string, does not start with `/`, and so is passed to the weather
lookup — the fetcher is invoked with an empty city argument, refuting the
claim that no code path does so. -/
theorem empty_city_lookup_counterexample :
    handle_message "   " = BotAction.lookup "" := by decide

/-- C9 (amended): on the `/weather` command path every lookup carries a
non-empty city (the joined argument tokens are non-empty), but the
plain-text path passes the stripped message text to the lookup unchecked,
so a whitespace-only message reaches the fetcher with an empty city. -/
theorem command_city_nonempty (s : String) (city : String) :
    (weather_command (context_args s) = BotAction.lookup city → city ≠ "") ∧
    ((py_strip s).startsWith "/" = false →
      handle_message s = BotAction.lookup (py_strip s)) := by
  constructor
  · intro h
    unfold weather_command at h
    by_cases he : (context_args s).isEmpty
    · rw [if_pos he] at h
      simp at h
    · rw [if_neg he] at h
      cases hargs : context_args s with
      | nil => rw [hargs] at he; simp at he
      | cons a rest =>
        rw [hargs] at h
        have hc : join_space (a :: rest) = city := by
          injection h
        have hmem : a ∈ words_aux [] s.data := by
          rw [show words_aux [] s.data = context_args s from rfl, hargs]
          exact List.mem_cons_self a rest
        have ha : a.data ≠ [] := words_aux_mem_ne_nil s.data [] a hmem
        intro hcity
        subst hcity
        exact join_space_data_ne_nil a rest ha (by rw [hc])
  · intro hs
    simp [handle_message, hs]

theorem format_ok_required (d : Payload) (msg : String)
    (h : format_weather_message d = Except.ok msg) : has_required_fields d := by
  cases hn : d.name <;> cases hc : d.sys_country <;> cases ht : d.main_temp <;>
  cases hfl : d.main_feels_like <;> cases hh : d.main_humidity <;>
  cases hp : d.main_pressure <;> cases hde : d.weather_description <;>
  cases hw : d.weather_id <;>
  simp_all [format_weather_message, getItem, has_required_fields,
    bind, Except.bind, pure, Except.pure]

/-- C10: a status-200 response whose body is missing one or more required
fields fails closed: `format_weather_message` raises, `get_weather` catches,
and the user receives exactly the fixed generic failure text — never a stack
trace, exception text or JSON dump. -/
theorem missing_required_field_generic (city_name : String) (d : Payload)
    (h : ¬ has_required_fields d) :
    get_weather city_name (HttpOutcome.response 200 d) =
      "❌ Sorry, there was an error getting the weather information. Please try again later." := by
  cases hf : format_weather_message d with
  | ok msg => exact absurd (format_ok_required d msg hf) h
  | error e => simp [get_weather, get_weather_data, hf, generic_error_reply]

/-- C10 witness: a 200 response with an empty JSON object resolves to the
generic failure reply. -/
theorem missing_required_field_generic_witness :
    get_weather "London" (HttpOutcome.response 200 payload_empty) =
      "❌ Sorry, there was an error getting the weather information. Please try again later." :=
  missing_required_field_generic "London" payload_empty (by decide)
